import Mathlib

/-!
Shallow embedding of the waitlist backend (`src/main.py`) and proofs of its
specified properties.

The service is a FastAPI app with five routes; the interesting one is
`POST /waitlist/submit` (main.py lines 88-132), which verifies a Cloudflare
Turnstile token and then performs a manual upsert on the `waitlist` collection.
We embed:
  - the document data model (`WaitlistDoc`, with the Mongo-assigned `_id`);
  - the database collaborator operations used by the handlers
    (`find_one`, `update_one` with a `$set` on `updated_at`,
    `count_documents({})`, and `create_document` from `database.py`,
    which is not shipped in `src/` and is therefore modelled from the spec);
  - the three nontrivial handlers `test_database`, `waitlist_count`
    and `waitlist_submit`;
  - the FastAPI/pydantic request-validation layer for the submit body.

Timestamps are abstracted as natural numbers (`datetime.now(timezone.utc)`
is injected as a parameter at each of its two call sites). Outcomes of the
outbound captcha call and of database probing are injected as explicit values,
turning the effectful Python into total functions on which the spec's
claims can be stated and proved. Database operations performed on an
available database inside the storage `try` block (main.py lines 116-132) are
modelled as non-raising, so the `except` branch at lines 131-132 has no
counterpart; all claims below concern executions in which the store itself
does not fail mid-request.
-/

/-- Embeds a document of the `waitlist` collection as built by
`waitlist_submit` (main.py lines 117-122), together with the Mongo `_id`
key assigned on insertion and the `updated_at` field that `update_one`
sets on duplicate submissions (line 126). -/
structure WaitlistDoc where
  _id : Nat
  email : String
  city : String
  source : String
  subscribed_at : Nat
  updated_at : Option Nat
deriving Repr, DecidableEq

/-- State of the `waitlist` collection: its documents in insertion order,
plus the next fresh `_id` the store will assign. -/
structure DBState where
  waitlist : List WaitlistDoc
  nextId : Nat
deriving Repr, DecidableEq

/-- Empty waitlist collection. -/
def DBState.empty : DBState := ⟨[], 0⟩

/-- Embeds Python truthiness of `os.getenv(...)` results as used in
`if not secret` (main.py line 92): `None` and the empty string are falsy. -/
def pyFalsyStr : Option String → Bool
  | none => true
  | some s => s.isEmpty

/-- Embeds the Python expression `v or d` for an optional string `v`
(main.py lines 119-120): the default applies when `v` is `None` or falsy
(the empty string). -/
def pyOr (v : Option String) (d : String) : String :=
  match v with
  | none => d
  | some s => if s.isEmpty then d else s

/-- Embeds Python `str.lower()` as used at main.py line 118, as the
character-wise lowercase map (ASCII case mapping, matching `Char.toLower`). -/
def pyLower (s : String) : String := ⟨s.data.map Char.toLower⟩

/-- Embeds `db["waitlist"].find_one({"email": e})` (main.py line 124):
Mongo returns the first document matching the filter, in insertion order,
or nothing. -/
def find_one (docs : List WaitlistDoc) (e : String) : Option WaitlistDoc :=
  docs.find? (fun d => d.email == e)

/-- Embeds `db["waitlist"].update_one({"_id": i}, {"$set": {"updated_at": t}})`
(main.py line 126): Mongo updates at most one document, the first whose
`_id` matches the filter, setting only its `updated_at` field. -/
def update_one (docs : List WaitlistDoc) (i : Nat) (t : Nat) : List WaitlistDoc :=
  match docs with
  | [] => []
  | d :: rest =>
    if d._id == i then { d with updated_at := some t } :: rest
    else d :: update_one rest i t

/-- Embeds `db["waitlist"].count_documents({})` (main.py lines 82 and 129):
the total number of documents in the collection. -/
def count_documents (docs : List WaitlistDoc) : Nat := docs.length

/-- Modelled from the spec: `create_document(collection_name, doc) -> id`, the
generic document-creation helper from `database.py`, which is not shipped in
`src/`. Per the spec it inserts the given document as a new one into the named
collection; the store assigns it the fresh `_id`. -/
def create_document (st : DBState) (doc : WaitlistDoc) : DBState :=
  { waitlist := st.waitlist ++ [{ doc with _id := st.nextId }],
    nextId := st.nextId + 1 }

/-- Embeds the parsed request body of `POST /waitlist/submit`
(class `WaitlistSubmission`, main.py lines 70-74): a validated email, the
required Turnstile token, and optional `city` and `source`. -/
structure WaitlistSubmission where
  email : String
  token : String
  city : Option String
  source : Option String
deriving Repr, DecidableEq

/-- Embeds the outcome of the outbound captcha call at main.py lines 106-107:
either the Turnstile response JSON was obtained, with `success` the truthiness
of `vr.get("success")` (false also when the field is missing), or the
transport/parsing raised with the given message. -/
inductive VerifyResult where
  | json (success : Bool)
  | raises (msg : String)
deriving Repr, DecidableEq

/-- Embeds the form data of the outbound verification POST
(main.py lines 98-103): `secret`, `response`, and `remoteip` when the
caller's address is available. -/
structure VerifyRequest where
  secret : String
  response : String
  remoteip : Option String
deriving Repr, DecidableEq

/-- Embeds a FastAPI `HTTPException` surfaced to the client: status code
and detail message. -/
structure HTTPError where
  status : Nat
  detail : String
deriving Repr, DecidableEq

/-- Embeds the success body `{"ok": True, "count": count}` of the submit
handler (main.py line 130). -/
structure SubmitOk where
  ok : Bool
  count : Nat
deriving Repr, DecidableEq

/-- Full observable outcome of one execution of `waitlist_submit`: the HTTP
result, the resulting collection state, and the outbound verification call
made, if any (`none` records that no call was attempted). -/
structure SubmitOutcome where
  result : Except HTTPError SubmitOk
  st : DBState
  verifyCall : Option VerifyRequest
deriving Repr

/-- Embeds `waitlist_submit` (main.py lines 88-132). Inputs: the
`TURNSTILE_SECRET_KEY` environment value, the validated payload, the caller's
address (`request.client.host`, best effort), the outcome the outbound
verification call would have, the collection state, and the two timestamps
taken by `datetime.now(timezone.utc)` (line 121 for the candidate document,
line 126 for the duplicate-submission update). Steps, in source order:
reject with 500 when the secret is unset or empty; build the verification
form data and interpret the call's outcome (400 when `success` is falsy,
500 on a raise, state untouched in both cases); otherwise lowercase the
email, build the candidate document with `city`/`source` defaulted over
Python falsiness, look up the email, update only `updated_at` of the
existing document or insert the candidate, re-read the count and answer
`{ok: true, count}`. -/
def waitlist_submit (secret : Option String) (payload : WaitlistSubmission)
    (remote_ip : Option String) (verify : VerifyResult) (st : DBState)
    (now now' : Nat) : SubmitOutcome :=
  if pyFalsyStr secret then
    { result := .error ⟨500, "Turnstile secret not configured"⟩,
      st := st, verifyCall := none }
  else
    let req : VerifyRequest :=
      { secret := secret.getD "", response := payload.token, remoteip := remote_ip }
    match verify with
    | .raises msg =>
      { result := .error ⟨500, "Verification error: " ++ msg⟩,
        st := st, verifyCall := some req }
    | .json success =>
      if !success then
        { result := .error ⟨400, "CAPTCHA verification failed"⟩,
          st := st, verifyCall := some req }
      else
        let doc : WaitlistDoc :=
          { _id := 0,
            email := pyLower payload.email,
            city := pyOr payload.city "Milano",
            source := pyOr payload.source "landing",
            subscribed_at := now,
            updated_at := none }
        match find_one st.waitlist doc.email with
        | some existing =>
          let st' : DBState :=
            { st with waitlist := update_one st.waitlist existing._id now' }
          { result := .ok ⟨true, count_documents st'.waitlist⟩,
            st := st', verifyCall := some req }
        | none =>
          let st' := create_document st doc
          { result := .ok ⟨true, count_documents st'.waitlist⟩,
            st := st', verifyCall := some req }

/-- Embeds the availability of the database handle for `waitlist_count`
(main.py lines 77-85): the module-level `db` may be `None`, or available
with the given collection state, or the count operation itself may raise. -/
inductive CountDB where
  | noDb
  | avail (st : DBState)
  | raises (msg : String)
deriving Repr, DecidableEq

/-- Embeds `waitlist_count` (main.py lines 77-85): 500 when `db` is `None`
(the inner `HTTPException` is caught by the broad `except` and re-raised with
its string form `"500: Database not configured"` as detail), 500 with the
exception text when counting raises, otherwise `{count: n}` with the total
number of documents. -/
def waitlist_count (d : CountDB) : Except HTTPError Nat :=
  match d with
  | .noDb => .error ⟨500, "500: Database not configured"⟩
  | .raises msg => .error ⟨500, msg⟩
  | .avail st => .ok (count_documents st.waitlist)

/-- Embeds what `test_database` (main.py lines 32-66) observes of the
database: `db` is `None`, or the handle is available (with its optional
`name` attribute) and `list_collection_names()` either returns the
collection names or raises, or probing the handle itself raises (the outer
`except` at lines 60-61). -/
inductive DbProbe where
  | noHandle
  | handle (name : Option String) (listing : Except String (List String))
  | outerRaise (msg : String)
deriving Repr

/-- Embeds the response dictionary built by `test_database`
(main.py lines 35-42). -/
structure TestResponse where
  backend : String
  database : String
  database_url : String
  database_name : String
  connection_status : String
  collections : List String
deriving Repr, DecidableEq

/-- Embeds `test_database` (main.py lines 32-66) as the total function it is:
every exception while probing is caught and folded into the `database`
status string, the env-var fields are overwritten at lines 63-64 from
whether `DATABASE_URL` / `DATABASE_NAME` are set, and the response is
returned with HTTP 200 (the pair's first component). -/
def test_database (probe : DbProbe) (urlSet nameSet : Bool) :
    Nat × TestResponse :=
  let base : TestResponse :=
    { backend := "✅ Running",
      database := "❌ Not Available",
      database_url := "",
      database_name := "",
      connection_status := "Not Connected",
      collections := [] }
  let r : TestResponse :=
    match probe with
    | .noHandle => { base with database := "⚠️  Available but not initialized" }
    | .handle name listing =>
      let r1 : TestResponse :=
        { base with
          database := "✅ Available",
          database_name := name.getD "✅ Connected",
          connection_status := "Connected" }
      match listing with
      | .ok cols =>
        { r1 with collections := cols.take 10,
                  database := "✅ Connected & Working" }
      | .error e =>
        { r1 with database := "⚠️  Connected but Error: " ++ e.take 50 }
    | .outerRaise e => { base with database := "❌ Error: " ++ e.take 50 }
  (200,
    { r with
      database_url := if urlSet then "✅ Set" else "❌ Not Set",
      database_name := if nameSet then "✅ Set" else "❌ Not Set" })

/-- Embeds the FastAPI/pydantic request-validation layer for the submit body
(main.py lines 70-74 and the framework's documented behavior): a body whose
`email` is missing or not a syntactically valid address, or whose `token` is
missing, is rejected before the handler runs, and FastAPI's default handler
for `RequestValidationError` answers HTTP 422 Unprocessable Entity. The
email syntax check is a simplified model of pydantic's `EmailStr`. -/
structure RawSubmitBody where
  email : Option String
  token : Option String
  city : Option String
  source : Option String
deriving Repr, DecidableEq

/-- Simplified model of the `EmailStr` syntax check used by the pydantic
model at main.py line 71: one `@` separating a nonempty local part from a
nonempty domain that contains an inner dot. -/
def validEmail (s : String) : Bool :=
  match s.splitOn "@" with
  | [lp, dom] =>
    !lp.isEmpty && !dom.isEmpty && dom.contains '.' &&
      !(dom.startsWith ".") && !(dom.endsWith ".")
  | _ => false

/-- Embeds the decoding of a raw submit body into a `WaitlistSubmission`
value, with FastAPI's documented 422 rejection of invalid bodies
(see `RawSubmitBody`). -/
def decodeSubmission (b : RawSubmitBody) : Except HTTPError WaitlistSubmission :=
  match b.email with
  | none => .error ⟨422, "field required: email"⟩
  | some e =>
    match b.token with
    | none => .error ⟨422, "field required: token"⟩
    | some t =>
      if validEmail e then
        .ok { email := e, token := t, city := b.city, source := b.source }
      else
        .error ⟨422, "value is not a valid email address"⟩

/-- One submission request in a sequential trace: everything
`waitlist_submit` consumes apart from the collection state. -/
structure SubmitEvent where
  secret : Option String
  payload : WaitlistSubmission
  remote_ip : Option String
  verify : VerifyResult
  now : Nat
  now' : Nat
deriving Repr, DecidableEq

/-- State reached by executing a sequence of submit requests sequentially,
each against the state the previous one left. -/
def runEvents (st : DBState) : List SubmitEvent → DBState
  | [] => st
  | e :: rest =>
    runEvents (waitlist_submit e.secret e.payload e.remote_ip e.verify st e.now e.now').st rest

/-- A submit event succeeds (reaches the database write) iff the secret is
configured and the captcha response's `success` field is truthy; this does
not depend on the collection state. -/
def eventOk (e : SubmitEvent) : Bool :=
  !(pyFalsyStr e.secret) &&
    (match e.verify with
     | .json b => b
     | .raises _ => false)

/-- Normalized emails of the successful submissions of a trace, in order. -/
def successfulEmails (evs : List SubmitEvent) : List String :=
  (evs.filter eventOk).map (fun e => pyLower e.payload.email)

/-- The uniqueness invariant of the collection: no two documents share a
(normalized) email. -/
def EmailsNodup (docs : List WaitlistDoc) : Prop :=
  (docs.map (fun d => d.email)).Nodup

/-- Key invariant of the store model: document ids are pairwise distinct. -/
def IdsNodup (docs : List WaitlistDoc) : Prop :=
  (docs.map (fun d => d._id)).Nodup

/-- Well-formedness of the store: ids are distinct and below the fresh id. -/
def StoreInv (st : DBState) : Prop :=
  IdsNodup st.waitlist ∧ ∀ d ∈ st.waitlist, d._id < st.nextId

/-! ### Basic lemmas about the collaborator operations -/

theorem update_one_map_eq {α : Type} (f : WaitlistDoc → α)
    (hf : ∀ d s, f { d with updated_at := some s } = f d)
    (docs : List WaitlistDoc) (i t : Nat) :
    (update_one docs i t).map f = docs.map f := by
  induction docs with
  | nil => rfl
  | cons d rest ih =>
    cases h : (d._id == i) with
    | true => simp [update_one, h, hf]
    | false => simp [update_one, h, ih]

theorem update_one_map_email (docs : List WaitlistDoc) (i t : Nat) :
    (update_one docs i t).map (fun d => d.email) = docs.map (fun d => d.email) :=
  update_one_map_eq (fun d => d.email) (fun _ _ => rfl) docs i t

theorem update_one_map_city (docs : List WaitlistDoc) (i t : Nat) :
    (update_one docs i t).map (fun d => d.city) = docs.map (fun d => d.city) :=
  update_one_map_eq (fun d => d.city) (fun _ _ => rfl) docs i t

theorem update_one_map_source (docs : List WaitlistDoc) (i t : Nat) :
    (update_one docs i t).map (fun d => d.source) = docs.map (fun d => d.source) :=
  update_one_map_eq (fun d => d.source) (fun _ _ => rfl) docs i t

theorem update_one_map_subscribed_at (docs : List WaitlistDoc) (i t : Nat) :
    (update_one docs i t).map (fun d => d.subscribed_at) =
      docs.map (fun d => d.subscribed_at) :=
  update_one_map_eq (fun d => d.subscribed_at) (fun _ _ => rfl) docs i t

theorem update_one_map_id (docs : List WaitlistDoc) (i t : Nat) :
    (update_one docs i t).map (fun d => d._id) = docs.map (fun d => d._id) :=
  update_one_map_eq (fun d => d._id) (fun _ _ => rfl) docs i t

theorem update_one_length (docs : List WaitlistDoc) (i t : Nat) :
    (update_one docs i t).length = docs.length := by
  have h := congrArg List.length (update_one_map_email docs i t)
  simpa using h

theorem find_one_mem {docs : List WaitlistDoc} {e : String} {d : WaitlistDoc}
    (h : find_one docs e = some d) : d ∈ docs ∧ d.email = e := by
  refine ⟨List.mem_of_find?_eq_some h, ?_⟩
  have h2 := List.find?_some h
  simpa using h2

theorem find_one_eq_none_iff {docs : List WaitlistDoc} {e : String} :
    find_one docs e = none ↔ e ∉ docs.map (fun d => d.email) := by
  constructor
  · intro h hmem
    rcases List.mem_map.mp hmem with ⟨d, hd, hde⟩
    have := List.find?_eq_none.mp h d hd
    simp [hde] at this
  · intro h
    apply List.find?_eq_none.mpr
    intro d hd
    simp only [beq_iff_eq]
    intro hde
    exact h (List.mem_map.mpr ⟨d, hd, hde⟩)

theorem find_one_isSome_of_mem {docs : List WaitlistDoc} {e : String}
    (h : e ∈ docs.map (fun d => d.email)) : ∃ d, find_one docs e = some d := by
  cases hf : find_one docs e with
  | some d => exact ⟨d, rfl⟩
  | none => exact absurd h (find_one_eq_none_iff.mp hf)

theorem email_mem_of_find_one {docs : List WaitlistDoc} {e : String} {d : WaitlistDoc}
    (h : find_one docs e = some d) : e ∈ docs.map (fun d => d.email) := by
  rcases find_one_mem h with ⟨hmem, hemail⟩
  exact List.mem_map.mpr ⟨d, hmem, hemail⟩

theorem update_one_found {e : String} (docs : List WaitlistDoc)
    (hids : IdsNodup docs) {d : WaitlistDoc}
    (hd : find_one docs e = some d) (t : Nat) :
    find_one (update_one docs d._id t) e = some { d with updated_at := some t } := by
  induction docs with
  | nil => cases hd
  | cons a rest ih =>
    cases h : (a.email == e) with
    | true =>
      have had : a = d := by
        have : some a = some d := by
          rw [← hd]; simp [find_one, List.find?_cons, h]
        exact Option.some.inj this
      subst had
      simp [update_one, find_one, List.find?_cons, h]
    | false =>
      have hrest : find_one rest e = some d := by
        rw [← hd]; simp [find_one, List.find?_cons, h]
      have hmem : d ∈ rest := (find_one_mem hrest).1
      have hids' : IdsNodup rest ∧ a._id ∉ rest.map (fun x => x._id) := by
        unfold IdsNodup at hids ⊢
        rw [List.map_cons, List.nodup_cons] at hids
        exact ⟨hids.2, hids.1⟩
      have hne : (a._id == d._id) = false := by
        apply beq_eq_false_iff_ne.mpr
        intro heq
        exact hids'.2 (heq ▸ List.mem_map.mpr ⟨d, hmem, rfl⟩)
      simp [update_one, find_one, List.find?_cons, h, hne] at *
      exact ih hids'.1 hrest

/-! ### Characterizing the paths of the submit handler -/

theorem waitlist_submit_found (s : String) (hs : s.isEmpty = false)
    (p : WaitlistSubmission) (rip : Option String) (st : DBState) (now now' : Nat)
    (ex : WaitlistDoc) (hfind : find_one st.waitlist (pyLower p.email) = some ex) :
    waitlist_submit (some s) p rip (.json true) st now now' =
      { result := .ok ⟨true, (update_one st.waitlist ex._id now').length⟩,
        st := { st with waitlist := update_one st.waitlist ex._id now' },
        verifyCall := some ⟨s, p.token, rip⟩ } := by
  simp [waitlist_submit, pyFalsyStr, hs, hfind, count_documents]

theorem waitlist_submit_notfound (s : String) (hs : s.isEmpty = false)
    (p : WaitlistSubmission) (rip : Option String) (st : DBState) (now now' : Nat)
    (hfind : find_one st.waitlist (pyLower p.email) = none) :
    waitlist_submit (some s) p rip (.json true) st now now' =
      { result := .ok ⟨true, st.waitlist.length + 1⟩,
        st := ⟨st.waitlist ++
          [{ _id := st.nextId, email := pyLower p.email, city := pyOr p.city "Milano",
             source := pyOr p.source "landing", subscribed_at := now,
             updated_at := none }],
          st.nextId + 1⟩,
        verifyCall := some ⟨s, p.token, rip⟩ } := by
  simp [waitlist_submit, pyFalsyStr, hs, hfind, create_document, count_documents]

theorem eventOk_elim {ev : SubmitEvent} (h : eventOk ev = true) :
    ∃ s, ev.secret = some s ∧ s.isEmpty = false ∧ ev.verify = .json true := by
  unfold eventOk at h
  cases hsec : ev.secret with
  | none => rw [hsec] at h; simp [pyFalsyStr] at h
  | some s =>
    rw [hsec] at h
    cases hv : ev.verify with
    | raises m => rw [hv] at h; simp at h
    | json b =>
      rw [hv] at h
      simp only [pyFalsyStr, Bool.and_eq_true, Bool.not_eq_true'] at h
      refine ⟨s, rfl, h.1, ?_⟩
      rw [h.2]

theorem submit_st_of_eventOk_false {ev : SubmitEvent} (h : eventOk ev = false)
    (st : DBState) :
    (waitlist_submit ev.secret ev.payload ev.remote_ip ev.verify st ev.now ev.now').st
      = st := by
  unfold eventOk at h
  unfold waitlist_submit
  cases hsec : pyFalsyStr ev.secret with
  | true => simp [hsec]
  | false =>
    rw [hsec] at h
    simp only [Bool.not_false, Bool.true_and] at h
    cases hv : ev.verify with
    | raises m => simp [hsec, hv]
    | json b =>
      rw [hv] at h
      have hb : b = false := h
      simp [hsec, hv, hb]

theorem submit_success_emails (s : String) (hs : s.isEmpty = false)
    (p : WaitlistSubmission) (rip : Option String) (st : DBState) (now now' : Nat) :
    (EmailsNodup st.waitlist →
        EmailsNodup (waitlist_submit (some s) p rip (.json true) st now now').st.waitlist) ∧
    ∀ e, e ∈ (waitlist_submit (some s) p rip (.json true) st now now').st.waitlist.map
            (fun d => d.email) ↔
          (e ∈ st.waitlist.map (fun d => d.email) ∨ e = pyLower p.email) := by
  cases hfind : find_one st.waitlist (pyLower p.email) with
  | some ex =>
    rw [waitlist_submit_found s hs p rip st now now' ex hfind]
    have hmem : pyLower p.email ∈ st.waitlist.map (fun d => d.email) :=
      email_mem_of_find_one hfind
    constructor
    · intro h
      unfold EmailsNodup at h ⊢
      simpa [update_one_map_email] using h
    · intro e
      simp only [update_one_map_email]
      constructor
      · exact Or.inl
      · rintro (h | rfl)
        · exact h
        · exact hmem
  | none =>
    rw [waitlist_submit_notfound s hs p rip st now now' hfind]
    have hnot : pyLower p.email ∉ st.waitlist.map (fun d => d.email) :=
      find_one_eq_none_iff.mp hfind
    constructor
    · intro h
      unfold EmailsNodup at h ⊢
      rw [List.map_append, List.nodup_append_comm]
      simp only [List.map_cons, List.map_nil, List.singleton_append, List.nodup_cons]
      exact ⟨hnot, h⟩
    · intro e
      simp [List.mem_append]

theorem successfulEmails_cons (ev : SubmitEvent) (evs : List SubmitEvent) :
    successfulEmails (ev :: evs) =
      if eventOk ev then pyLower ev.payload.email :: successfulEmails evs
      else successfulEmails evs := by
  cases h : eventOk ev <;> simp [successfulEmails, List.filter_cons, h]

theorem runEvents_emails (evs : List SubmitEvent) :
    ∀ st : DBState, EmailsNodup st.waitlist →
      EmailsNodup (runEvents st evs).waitlist ∧
      ∀ e, e ∈ (runEvents st evs).waitlist.map (fun d => d.email) ↔
        (e ∈ st.waitlist.map (fun d => d.email) ∨ e ∈ successfulEmails evs) := by
  induction evs with
  | nil =>
    intro st h
    refine ⟨h, fun e => ?_⟩
    simp [runEvents, successfulEmails]
  | cons ev rest ih =>
    intro st h
    rw [runEvents]
    cases hok : eventOk ev with
    | false =>
      rw [submit_st_of_eventOk_false hok st]
      have hres := ih st h
      refine ⟨hres.1, fun e => ?_⟩
      rw [hres.2 e, successfulEmails_cons, hok]
      simp
    | true =>
      rcases eventOk_elim hok with ⟨s, hsec, hs, hv⟩
      rw [hsec, hv]
      have hstep := submit_success_emails s hs ev.payload ev.remote_ip st ev.now ev.now'
      have hres := ih _ (hstep.1 h)
      refine ⟨hres.1, fun e => ?_⟩
      rw [hres.2 e, hstep.2 e, successfulEmails_cons, hok]
      simp only [if_true, List.mem_cons]
      tauto

theorem filter_email_length (docs : List WaitlistDoc) (e : String) :
    (docs.filter (fun d => d.email == e)).length =
      (docs.map (fun d => d.email)).count e := by
  induction docs with
  | nil => rfl
  | cons d rest ih =>
    rw [List.filter_cons, List.map_cons]
    cases h : (d.email == e) with
    | true =>
      have he : d.email = e := beq_iff_eq.mp h
      simp only [h, if_true, List.length_cons, ih, he, List.count_cons_self]
    | false =>
      have he : e ≠ d.email := fun hh => by simp [hh] at h
      simp only [h, Bool.false_eq_true, if_false, ih, List.count_cons_of_ne he]

/-! ### The claims -/

/-- C1: sequential submissions keep at most one document per normalized email
in the waitlist collection, and submitting the same valid email twice with
successful captcha verification leaves exactly one document for that email. -/
theorem waitlist_email_unique
    (st : DBState) (hn : EmailsNodup st.waitlist) (evs : List SubmitEvent)
    (s : String) (hs : s.isEmpty = false) (p : WaitlistSubmission)
    (rip rip' : Option String) (n1 n1' n2 n2' : Nat) :
    EmailsNodup (runEvents st evs).waitlist ∧
    ((waitlist_submit (some s) p rip' (.json true)
        (waitlist_submit (some s) p rip (.json true) st n1 n1').st n2 n2').st.waitlist.filter
          (fun d => d.email == pyLower p.email)).length = 1 := by
  refine ⟨(runEvents_emails evs st hn).1, ?_⟩
  have h1 := submit_success_emails s hs p rip st n1 n1'
  have hmem1 : pyLower p.email ∈
      (waitlist_submit (some s) p rip (.json true) st n1 n1').st.waitlist.map
        (fun d => d.email) :=
    (h1.2 _).mpr (Or.inr rfl)
  have hn1 : EmailsNodup
      (waitlist_submit (some s) p rip (.json true) st n1 n1').st.waitlist := h1.1 hn
  rcases find_one_isSome_of_mem hmem1 with ⟨ex, hex⟩
  rw [waitlist_submit_found s hs p rip' _ n2 n2' ex hex]
  show ((update_one (waitlist_submit (some s) p rip (.json true) st n1 n1').st.waitlist
      ex._id n2').filter (fun d => d.email == pyLower p.email)).length = 1
  rw [filter_email_length, update_one_map_email]
  exact List.count_eq_one_of_mem hn1 hmem1

theorem waitlist_email_unique_witness :
    EmailsNodup (DBState.empty.waitlist) ∧
    ("sec" : String).isEmpty = false ∧
    EmailsNodup (runEvents DBState.empty []).waitlist ∧
    ((waitlist_submit (some "sec") ⟨"A@B.com", "t", none, none⟩ none (.json true)
        (waitlist_submit (some "sec") ⟨"A@B.com", "t", none, none⟩ none (.json true)
          DBState.empty 1 2).st 3 4).st.waitlist.filter
          (fun d => d.email == pyLower "A@B.com")).length = 1 := by
  have h := waitlist_email_unique DBState.empty (by simp [EmailsNodup, DBState.empty]) []
    "sec" rfl ⟨"A@B.com", "t", none, none⟩ none none 1 2 3 4
  exact ⟨by simp [EmailsNodup, DBState.empty], rfl, h.1, h.2⟩

/-- C2: when the normalized email already has a document, a successful
submission only sets `updated_at` on it: the collection keeps its length and
every stored `email`, `city`, `source` and `subscribed_at` value, and the
document found for that email afterwards is the old one with `updated_at`
set to the update-time; the response is `{ok: true, count}` with the
unchanged count. -/
theorem submit_existing_email_frame (s : String) (hs : s.isEmpty = false)
    (p : WaitlistSubmission) (rip : Option String) (st : DBState) (now now' : Nat)
    (d : WaitlistDoc) (hids : IdsNodup st.waitlist)
    (hfound : find_one st.waitlist (pyLower p.email) = some d)
    (o : SubmitOutcome)
    (ho : o = waitlist_submit (some s) p rip (.json true) st now now') :
    o.st.waitlist.length = st.waitlist.length ∧
    o.st.waitlist.map (fun x => x.email) = st.waitlist.map (fun x => x.email) ∧
    o.st.waitlist.map (fun x => x.city) = st.waitlist.map (fun x => x.city) ∧
    o.st.waitlist.map (fun x => x.source) = st.waitlist.map (fun x => x.source) ∧
    o.st.waitlist.map (fun x => x.subscribed_at)
      = st.waitlist.map (fun x => x.subscribed_at) ∧
    find_one o.st.waitlist (pyLower p.email) = some { d with updated_at := some now' } ∧
    o.result = .ok ⟨true, st.waitlist.length⟩ := by
  subst ho
  rw [waitlist_submit_found s hs p rip st now now' d hfound]
  exact ⟨update_one_length _ _ _, update_one_map_email _ _ _, update_one_map_city _ _ _,
    update_one_map_source _ _ _, update_one_map_subscribed_at _ _ _,
    update_one_found st.waitlist hids hfound now',
    congrArg (fun n => (Except.ok { ok := true, count := n } : Except HTTPError SubmitOk))
      (update_one_length st.waitlist d._id now')⟩

theorem submit_existing_email_frame_witness :
    IdsNodup ([⟨0, "a@b.com", "Roma", "flyer", 1, none⟩] : List WaitlistDoc) ∧
    (waitlist_submit (some "sec") ⟨"a@b.com", "t", none, none⟩ none (.json true)
        ⟨[⟨0, "a@b.com", "Roma", "flyer", 1, none⟩], 1⟩ 5 7).st.waitlist.map
        (fun x => x.city) = ["Roma"] ∧
    find_one (waitlist_submit (some "sec") ⟨"a@b.com", "t", none, none⟩ none (.json true)
        ⟨[⟨0, "a@b.com", "Roma", "flyer", 1, none⟩], 1⟩ 5 7).st.waitlist
        (pyLower "a@b.com")
      = some ⟨0, "a@b.com", "Roma", "flyer", 1, some 7⟩ := by
  have h := submit_existing_email_frame "sec" rfl ⟨"a@b.com", "t", none, none⟩ none
      ⟨[⟨0, "a@b.com", "Roma", "flyer", 1, none⟩], 1⟩ 5 7
      ⟨0, "a@b.com", "Roma", "flyer", 1, none⟩
      (by simp [IdsNodup]) rfl _ rfl
  exact ⟨by simp [IdsNodup], h.2.2.1, h.2.2.2.2.2.1⟩

/-- C3: when captcha verification does not succeed the handler leaves the
database untouched; a response whose `success` field is false or missing
yields HTTP 400 "CAPTCHA verification failed", and a transport/parsing
raise yields HTTP 500 prefixed "Verification error: ". -/
theorem submit_unverified_untouched (secret : Option String)
    (hsec : pyFalsyStr secret = false) (p : WaitlistSubmission) (rip : Option String)
    (st : DBState) (now now' : Nat) :
    ((waitlist_submit secret p rip (.json false) st now now').result
        = .error ⟨400, "CAPTCHA verification failed"⟩ ∧
      (waitlist_submit secret p rip (.json false) st now now').st = st ∧
      waitlist_count (.avail (waitlist_submit secret p rip (.json false) st now now').st)
        = waitlist_count (.avail st)) ∧
    ∀ msg, (waitlist_submit secret p rip (.raises msg) st now now').result
        = .error ⟨500, "Verification error: " ++ msg⟩ ∧
      (waitlist_submit secret p rip (.raises msg) st now now').st = st := by
  refine ⟨⟨?_, ?_, ?_⟩, fun msg => ⟨?_, ?_⟩⟩ <;> simp [waitlist_submit, hsec]

theorem submit_unverified_untouched_witness :
    pyFalsyStr (some "sec") = false ∧
    (waitlist_submit (some "sec") ⟨"a@b.com", "t", none, none⟩ none (.json false)
        DBState.empty 1 2).result = .error ⟨400, "CAPTCHA verification failed"⟩ ∧
    (waitlist_submit (some "sec") ⟨"a@b.com", "t", none, none⟩ none (.json false)
        DBState.empty 1 2).st = DBState.empty ∧
    (waitlist_submit (some "sec") ⟨"a@b.com", "t", none, none⟩ none (.raises "boom")
        DBState.empty 1 2).result = .error ⟨500, "Verification error: boom"⟩ := by
  have h := submit_unverified_untouched (some "sec") rfl ⟨"a@b.com", "t", none, none⟩
      none DBState.empty 1 2
  exact ⟨rfl, h.1.1, h.1.2.1, (h.2 "boom").1⟩

/-- C4: with no configured secret the handler answers HTTP 500
"Turnstile secret not configured", attempts no outbound verification call,
and leaves the database untouched. -/
theorem submit_missing_secret (p : WaitlistSubmission) (rip : Option String)
    (verify : VerifyResult) (st : DBState) (now now' : Nat) :
    (waitlist_submit none p rip verify st now now').result
      = .error ⟨500, "Turnstile secret not configured"⟩ ∧
    (waitlist_submit none p rip verify st now now').verifyCall = none ∧
    (waitlist_submit none p rip verify st now now').st = st :=
  ⟨rfl, rfl, rfl⟩

/-- C5: emails are normalized to lowercase before lookup and storage, so two
successful submissions whose emails agree up to letter case land on the same
entry: the second one changes no count, and from an empty collection the
count is 1 after the pair. -/
theorem submit_normalizes_case (s : String) (hs : s.isEmpty = false)
    (p1 p2 : WaitlistSubmission) (hcase : pyLower p1.email = pyLower p2.email)
    (rip1 rip2 : Option String) (st : DBState) (n1 n1' n2 n2' : Nat)
    (o1 o2 : SubmitOutcome)
    (ho1 : o1 = waitlist_submit (some s) p1 rip1 (.json true) st n1 n1')
    (ho2 : o2 = waitlist_submit (some s) p2 rip2 (.json true) o1.st n2 n2') :
    count_documents o2.st.waitlist = count_documents o1.st.waitlist ∧
    (st = DBState.empty → count_documents o2.st.waitlist = 1) := by
  subst ho2
  subst ho1
  have h1 := submit_success_emails s hs p1 rip1 st n1 n1'
  have hmem : pyLower p2.email ∈
      (waitlist_submit (some s) p1 rip1 (.json true) st n1 n1').st.waitlist.map
        (fun d => d.email) := by
    rw [← hcase]; exact (h1.2 _).mpr (Or.inr rfl)
  rcases find_one_isSome_of_mem hmem with ⟨ex, hex⟩
  rw [waitlist_submit_found s hs p2 rip2 _ n2 n2' ex hex]
  constructor
  · exact update_one_length _ _ _
  · intro hempty
    subst hempty
    show (update_one (waitlist_submit (some s) p1 rip1 (.json true)
        DBState.empty n1 n1').st.waitlist ex._id n2').length = 1
    rw [update_one_length]
    rw [waitlist_submit_notfound s hs p1 rip1 DBState.empty n1 n1' rfl]
    rfl

theorem submit_normalizes_case_witness :
    pyLower "Foo@Example.com" = pyLower "foo@example.com" ∧
    count_documents (waitlist_submit (some "sec") ⟨"foo@example.com", "t", none, none⟩
        none (.json true)
        (waitlist_submit (some "sec") ⟨"Foo@Example.com", "t", none, none⟩ none (.json true)
          DBState.empty 1 2).st 3 4).st.waitlist = 1 := by
  have h := submit_normalizes_case "sec" rfl ⟨"Foo@Example.com", "t", none, none⟩
      ⟨"foo@example.com", "t", none, none⟩ (by decide) none none DBState.empty
      1 2 3 4 _ _ rfl rfl
  exact ⟨by decide, h.2 rfl⟩

/-- C6: a successful submission for a normalized email not yet in the
collection inserts one new document whose `city` and `source` are the given
values, falling back to "Milano" and "landing" when absent, and whose
`subscribed_at` is the current time; the handler re-reads the count and
answers `{ok: true, count}`, so from an empty collection the count is 1. -/
theorem submit_new_email_inserts (s : String) (hs : s.isEmpty = false)
    (p : WaitlistSubmission) (rip : Option String) (st : DBState) (now now' : Nat)
    (hnew : find_one st.waitlist (pyLower p.email) = none)
    (o : SubmitOutcome)
    (ho : o = waitlist_submit (some s) p rip (.json true) st now now') :
    o.st.waitlist = st.waitlist ++
      [{ _id := st.nextId, email := pyLower p.email, city := pyOr p.city "Milano",
         source := pyOr p.source "landing", subscribed_at := now,
         updated_at := none }] ∧
    o.result = .ok ⟨true, st.waitlist.length + 1⟩ ∧
    (p.city = none → pyOr p.city "Milano" = "Milano") ∧
    (∀ c, p.city = some c → c.isEmpty = false → pyOr p.city "Milano" = c) ∧
    (p.source = none → pyOr p.source "landing" = "landing") ∧
    (∀ c, p.source = some c → c.isEmpty = false → pyOr p.source "landing" = c) := by
  subst ho
  rw [waitlist_submit_notfound s hs p rip st now now' hnew]
  refine ⟨rfl, rfl, ?_, ?_, ?_, ?_⟩
  · intro h; rw [h]; rfl
  · intro c hc hce; rw [hc]; simp [pyOr, hce]
  · intro h; rw [h]; rfl
  · intro c hc hce; rw [hc]; simp [pyOr, hce]

theorem submit_new_email_inserts_witness :
    find_one DBState.empty.waitlist (pyLower "a@b.com") = none ∧
    (waitlist_submit (some "sec") ⟨"a@b.com", "valid", none, none⟩ none (.json true)
        DBState.empty 3 4).st.waitlist =
      [{ _id := 0, email := "a@b.com", city := "Milano", source := "landing",
         subscribed_at := 3, updated_at := none }] ∧
    (waitlist_submit (some "sec") ⟨"a@b.com", "valid", none, none⟩ none (.json true)
        DBState.empty 3 4).result = .ok ⟨true, 1⟩ := by
  have h := submit_new_email_inserts "sec" rfl ⟨"a@b.com", "valid", none, none⟩ none
      DBState.empty 3 4 rfl _ rfl
  exact ⟨rfl, by rw [h.1]; rfl, h.2.1⟩

/-- C7: `GET /test` always answers HTTP 200; an exception from
`list_collection_names` or from probing the handle is caught and reflected
as a degraded-status string in the `database` field, and the remaining
probe shapes also map to their fixed status strings. -/
theorem test_database_always_200 (probe : DbProbe) (urlSet nameSet : Bool) :
    (test_database probe urlSet nameSet).1 = 200 ∧
    (∀ name e, probe = .handle name (.error e) →
      (test_database probe urlSet nameSet).2.database
        = "⚠️  Connected but Error: " ++ e.take 50) ∧
    (∀ e, probe = .outerRaise e →
      (test_database probe urlSet nameSet).2.database = "❌ Error: " ++ e.take 50) ∧
    (∀ name cols, probe = .handle name (.ok cols) →
      (test_database probe urlSet nameSet).2.database = "✅ Connected & Working") ∧
    (probe = .noHandle →
      (test_database probe urlSet nameSet).2.database
        = "⚠️  Available but not initialized") := by
  refine ⟨rfl, ?_, ?_, ?_, ?_⟩
  · intro name e h; subst h; rfl
  · intro e h; subst h; rfl
  · intro name cols h; subst h; rfl
  · intro h; subst h; rfl

theorem test_database_always_200_witness :
    (test_database (.handle none (.error "boom")) true false).1 = 200 ∧
    (test_database (.handle none (.error "boom")) true false).2.database
      = "⚠️  Connected but Error: " ++ ("boom" : String).take 50 := by
  have h := test_database_always_200 (.handle none (.error "boom")) true false
  exact ⟨h.1, h.2.1 none "boom" rfl⟩

/-- C8: `GET /waitlist/count` returns the total number of documents in the
waitlist collection, which over any sequential trace from the empty store
equals the number of distinct normalized emails of the successful
submissions (a natural number, hence never negative); it fails with HTTP 500
when the database handle is unavailable or the count operation raises. -/
theorem waitlist_count_spec :
    (∀ st, waitlist_count (.avail st) = .ok (count_documents st.waitlist)) ∧
    (∀ evs, waitlist_count (.avail (runEvents DBState.empty evs))
        = .ok ((successfulEmails evs).dedup.length)) ∧
    waitlist_count .noDb = .error ⟨500, "500: Database not configured"⟩ ∧
    (∀ msg, waitlist_count (.raises msg) = .error ⟨500, msg⟩) := by
  refine ⟨fun st => rfl, fun evs => ?_, rfl, fun msg => rfl⟩
  have h := runEvents_emails evs DBState.empty (by simp [EmailsNodup, DBState.empty])
  have hmem : ∀ e, e ∈ (runEvents DBState.empty evs).waitlist.map (fun d => d.email)
      ↔ e ∈ successfulEmails evs := by
    intro e
    rw [h.2 e]
    simp [DBState.empty]
  have hperm : List.Perm ((runEvents DBState.empty evs).waitlist.map (fun d => d.email))
      ((successfulEmails evs).dedup) := by
    refine (List.perm_ext_iff_of_nodup h.1 (List.nodup_dedup _)).mpr fun a => ?_
    rw [hmem a, List.mem_dedup]
  have hlen : (runEvents DBState.empty evs).waitlist.length
      = (successfulEmails evs).dedup.length := by
    have h2 := hperm.length_eq
    simpa using h2
  exact congrArg Except.ok hlen

/-- C9 counterexample: a submit body with a valid email but a missing token
is rejected by the request-validation layer with HTTP 422, not HTTP 400 as
the claim states. -/
theorem submit_validation_not_400 :
    decodeSubmission { email := some "a@b.com", token := none, city := none, source := none }
      = .error ⟨422, "field required: token"⟩ ∧
    (422 : Nat) ≠ 400 :=
  ⟨rfl, by decide⟩

/-- C9 amended: a submit body with a malformed or missing email or a missing
token is rejected with HTTP 422 (FastAPI's request-validation status) and a
message indicating the cause. -/
theorem submit_validation_422 (b : RawSubmitBody)
    (hbad : b.email = none ∨ b.token = none ∨
      ∃ e, b.email = some e ∧ validEmail e = false) :
    ∃ err, decodeSubmission b = .error err ∧ err.status = 422 := by
  rcases b with ⟨be, bt, bc, bs⟩
  cases be with
  | none => exact ⟨⟨422, "field required: email"⟩, rfl, rfl⟩
  | some e =>
    cases bt with
    | none => exact ⟨⟨422, "field required: token"⟩, rfl, rfl⟩
    | some t =>
      rcases hbad with h | h | ⟨e', he', hbadmail⟩
      · cases h
      · cases h
      · have he : e' = e := by
          have := he'
          simpa using this.symm
        subst he
        refine ⟨⟨422, "value is not a valid email address"⟩, ?_, rfl⟩
        simp [decodeSubmission, hbadmail]

theorem submit_validation_422_witness :
    ∃ err, decodeSubmission { email := some "a@b.com", token := none, city := none, source := none }
      = .error err ∧ err.status = 422 :=
  submit_validation_422 _ (Or.inr (Or.inl rfl))

/-- C10: the `city` and `source` defaults apply to any Python-falsy value:
a first submission supplying them as empty strings stores "Milano" and
"landing", with outcome identical to omitting the fields. -/
theorem submit_defaults_on_falsy (s : String) (hs : s.isEmpty = false)
    (email token : String) (rip : Option String) (st : DBState) (now now' : Nat)
    (hnew : find_one st.waitlist (pyLower email) = none)
    (oE oN : SubmitOutcome)
    (hoE : oE = waitlist_submit (some s) ⟨email, token, some "", some ""⟩ rip
        (.json true) st now now')
    (hoN : oN = waitlist_submit (some s) ⟨email, token, none, none⟩ rip
        (.json true) st now now') :
    oE.st = oN.st ∧ oE.result = oN.result ∧
    oE.st.waitlist = st.waitlist ++
      [{ _id := st.nextId, email := pyLower email, city := "Milano",
         source := "landing", subscribed_at := now, updated_at := none }] := by
  subst hoE hoN
  rw [waitlist_submit_notfound s hs ⟨email, token, some "", some ""⟩ rip st now now' hnew,
      waitlist_submit_notfound s hs ⟨email, token, none, none⟩ rip st now now' hnew]
  exact ⟨rfl, rfl, rfl⟩

theorem submit_defaults_on_falsy_witness :
    find_one DBState.empty.waitlist (pyLower "a@b.com") = none ∧
    (waitlist_submit (some "sec") ⟨"a@b.com", "t", some "", some ""⟩ none (.json true)
        DBState.empty 3 4).st =
      (waitlist_submit (some "sec") ⟨"a@b.com", "t", none, none⟩ none (.json true)
        DBState.empty 3 4).st ∧
    (waitlist_submit (some "sec") ⟨"a@b.com", "t", some "", some ""⟩ none (.json true)
        DBState.empty 3 4).st.waitlist =
      [{ _id := 0, email := "a@b.com", city := "Milano", source := "landing",
         subscribed_at := 3, updated_at := none }] := by
  have h := submit_defaults_on_falsy "sec" rfl "a@b.com" "t" none DBState.empty 3 4
      rfl _ _ rfl rfl
  exact ⟨rfl, h.1, by rw [h.2.2]; rfl⟩
